import Mathlib

/-!
# Verification of the datadog-sync-cli resource adapters

A shallow embedding of the resource adapter classes under
`datadog_sync/model/` (AWS, Azure, Fastly, GCP, PagerDuty, Slack,
Webhooks, Service Definition) together with theorems checking the
natural-language specification against the code.

Python dictionaries are modelled as association lists of string keys and
`PyVal` values; Python methods become pure functions taking the ambient
state (`self.config.state.destination[resource_type]`, the adapter's
destination cache) as explicit arguments.  A method that can raise
(`KeyError`, `AttributeError`) is embedded with an `Option` result,
`none` standing for the raised exception.  HTTP requests issued by a
method are returned as an explicit list of `HttpCall` records.
-/

set_option autoImplicit false

/-- A Python value as it appears in the JSON-ish resource dictionaries. -/
inductive PyVal where
  | vnone : PyVal
  | vbool : Bool → PyVal
  | vint : Int → PyVal
  | vstr : String → PyVal
  | vlist : List PyVal → PyVal
  | vdict : List (String × PyVal) → PyVal

/-- A Python dict with string keys: an association list (keys unique in
practice; lookup returns the first binding). -/
def Dict := List (String × PyVal)

/-- A string-keyed map of dictionaries: used for the destination cache and
for `state.destination[resource_type]`. -/
def DictMap := List (String × Dict)

/-- First-match association list lookup (`d[k]` presence test / access). -/
def alookup {α : Type} : List (String × α) → String → Option α
  | [], _ => none
  | (k', v) :: rest, k => if k' = k then some v else alookup rest k

/-- Replace the value bound to `k` (keys are unique in a Python dict, so
rebinding every occurrence matches rebinding the one). -/
def areplace {α : Type} : List (String × α) → String → α → List (String × α)
  | [], _, _ => []
  | (k₀, v₀) :: rest, k, v =>
      if k₀ = k then (k, v) :: areplace rest k v else (k₀, v₀) :: areplace rest k v

/-- Python dict assignment `d[k] = v`: replace in place when the key exists,
append otherwise. -/
def ainsert {α : Type} (l : List (String × α)) (k : String) (v : α) : List (String × α) :=
  if (alookup l k).isSome then areplace l k v
  else l ++ [(k, v)]

/-- Python `d.get(k, default)`. -/
def pyGet (d : Dict) (k : String) (dflt : PyVal) : PyVal :=
  (alookup d k).getD dflt

/-- Python `d.get(k)` (default `None`). -/
def pyGetN (d : Dict) (k : String) : PyVal :=
  pyGet d k .vnone

/-- Python `v.get(k, default)` on an arbitrary value: an `AttributeError`
(modelled `none`) unless `v` is a dict. -/
def pyValGet (v : PyVal) (k : String) (dflt : PyVal) : Option PyVal :=
  match v with
  | .vdict l => some (pyGet l k dflt)
  | _ => none

/-- Python truthiness of a value (`if x:`). -/
def truthy : PyVal → Bool
  | .vnone => false
  | .vbool b => b
  | .vint n => n != 0
  | .vstr s => s ≠ ""
  | .vlist l => !l.isEmpty
  | .vdict l => !l.isEmpty

/-- Python `str(x)` as used by f-string interpolation.  The adapters only
ever interpolate strings, numbers or `None` into identifiers and URL
paths; the rendering of composite values is irrelevant to every claim and
abbreviated here. -/
def pyFmt : PyVal → String
  | .vnone => "None"
  | .vbool true => "True"
  | .vbool false => "False"
  | .vint n => toString n
  | .vstr s => s
  | .vlist _ => "[...]"
  | .vdict _ => "{...}"

/-- The HTTP method of a request issued through the injected client. -/
inductive Method where
  | get | post | put | patch | delete
  deriving DecidableEq

/-- One HTTP request issued by an adapter method, as observed at the
`CustomClient` interface. -/
structure HttpCall where
  method : Method
  path : String
  body : Option PyVal
  params : Option Dict

/-- Number of create (POST) calls in a trace. -/
def countPosts (calls : List HttpCall) : Nat :=
  (calls.filter (fun c => c.method = .post)).length

/-- Number of PUT calls in a trace. -/
def countPuts (calls : List HttpCall) : Nat :=
  (calls.filter (fun c => c.method = .put)).length

/-! ## AWS integration adapter (`datadog_sync/model/aws_integration.py`) -/

def awsBasePath : String := "/api/v1/integration/aws"

/-- `AWSIntegration._get_resource_id`: composite key
`account_id:access_key_id` when `access_key_id` is truthy, else
`account_id:role_name`, every field read with `.get(k, "")`. -/
def aws_get_resource_id (resource : Dict) : String :=
  let account_id := pyGet resource "account_id" (.vstr "")
  let role_name := pyGet resource "role_name" (.vstr "")
  let access_key_id := pyGet resource "access_key_id" (.vstr "")
  if truthy access_key_id then pyFmt account_id ++ ":" ++ pyFmt access_key_id
  else pyFmt account_id ++ ":" ++ pyFmt role_name

/-- `AWSIntegration.get_resources`: `resp.get("accounts", [])`. -/
def aws_get_resources (resp : Dict) : PyVal :=
  pyGet resp "accounts" (.vlist [])

/-- `AWSIntegration.update_resource`, request part: builds the query
params from `state.destination[resource_type].get(_id, {})` with
fallbacks to the passed resource, then issues one PUT. -/
def aws_update_call (st : DictMap) (_id : String) (resource : Dict) : HttpCall :=
  let dest_resource := (alookup st _id).getD []
  let params : Dict := [("account_id", pyGet dest_resource "account_id" (pyGetN resource "account_id"))]
  let params : Dict :=
    if truthy (pyGetN dest_resource "role_name") || truthy (pyGetN resource "role_name") then
      ainsert params "role_name" (pyGet dest_resource "role_name" (pyGetN resource "role_name"))
    else if truthy (pyGetN dest_resource "access_key_id") || truthy (pyGetN resource "access_key_id") then
      ainsert params "access_key_id" (pyGet dest_resource "access_key_id" (pyGetN resource "access_key_id"))
    else params
  { method := .put, path := awsBasePath, body := some (.vdict resource), params := some params }

/-- `AWSIntegration.create_resource`: when the recomputed identity key is
in the destination cache, store the cached instance into
`state.destination[resource_type][_id]` and delegate to
`update_resource`; otherwise issue one POST.  Returns the new state and
the calls issued. -/
def aws_create (cache : DictMap) (st : DictMap) (_id : String) (resource : Dict) :
    DictMap × List HttpCall :=
  let resource_id := aws_get_resource_id resource
  match alookup cache resource_id with
  | some cached =>
      let st' := ainsert st _id cached
      (st', [aws_update_call st' _id resource])
  | none =>
      (st, [{ method := .post, path := awsBasePath, body := some (.vdict resource), params := none }])

/-- `AWSIntegration.delete_resource`: reads
`state.destination[resource_type].get(_id, {})` and issues one DELETE
whose body carries the identifying fields (single-argument `.get`, so a
missing entry degrades to `account_id: None`). -/
def aws_delete_call (st : DictMap) (_id : String) : HttpCall :=
  let dest_resource := (alookup st _id).getD []
  let body : Dict := [("account_id", pyGetN dest_resource "account_id")]
  let body : Dict :=
    if truthy (pyGetN dest_resource "role_name") then
      ainsert body "role_name" (pyGetN dest_resource "role_name")
    else if truthy (pyGetN dest_resource "access_key_id") then
      ainsert body "access_key_id" (pyGetN dest_resource "access_key_id")
    else body
  { method := .delete, path := awsBasePath, body := some (.vdict body), params := none }

/-! ## Azure integration adapter (`datadog_sync/model/azure_integration.py`) -/

def azureBasePath : String := "/api/v1/integration/azure"

/-- `AzureIntegration._get_resource_id`: composite key
`tenant_name:client_id`, fields read with `.get(k, "")`. -/
def azure_get_resource_id (resource : Dict) : String :=
  let tenant_name := pyGet resource "tenant_name" (.vstr "")
  let client_id := pyGet resource "client_id" (.vstr "")
  pyFmt tenant_name ++ ":" ++ pyFmt client_id

/-- `AzureIntegration.get_resources`: the body itself when it is a list,
`[]` otherwise. -/
def azure_get_resources (resp : PyVal) : List PyVal :=
  match resp with
  | .vlist l => l
  | _ => []

/-- `AzureIntegration.update_resource`, request part: one PUT of the
passed resource to the base path.  The method receives the ambient state
store like every adapter method but never reads it. -/
def azure_update_call (_st : DictMap) (_id : String) (resource : Dict) : HttpCall :=
  { method := .put, path := azureBasePath, body := some (.vdict resource), params := none }

/-- `AzureIntegration.create_resource`: cache hit on the recomputed
identity key stores the cached instance into the state store and
delegates to `update_resource`; otherwise one POST. -/
def azure_create (cache : DictMap) (st : DictMap) (_id : String) (resource : Dict) :
    DictMap × List HttpCall :=
  let resource_id := azure_get_resource_id resource
  match alookup cache resource_id with
  | some cached =>
      let st' := ainsert st _id cached
      (st', [azure_update_call st' _id resource])
  | none =>
      (st, [{ method := .post, path := azureBasePath, body := some (.vdict resource), params := none }])

/-- `AzureIntegration.delete_resource`: reads
`state.destination[resource_type].get(_id, {})` and issues one DELETE
whose body carries `tenant_name`/`client_id` (single-argument `.get`, so
a missing entry degrades to `None` values). -/
def azure_delete_call (st : DictMap) (_id : String) : HttpCall :=
  let dest_resource := (alookup st _id).getD []
  let body : Dict :=
    [("tenant_name", pyGetN dest_resource "tenant_name"),
     ("client_id", pyGetN dest_resource "client_id")]
  { method := .delete, path := azureBasePath, body := some (.vdict body), params := none }

/-! ## Fastly integration adapter (`datadog_sync/model/fastly_integration.py`) -/

def fastlyBasePath : String := "/api/v2/integrations/fastly/accounts"

/-- `FastlyIntegration.get_resources`: `resp.get("data", [])`. -/
def fastly_get_resources (resp : Dict) : PyVal :=
  pyGet resp "data" (.vlist [])

/-- `FastlyIntegration.import_resource` on a pre-supplied instance:
`return resource["id"], resource` — a `KeyError` (here `none`) when the
instance has no `id` field. -/
def fastly_import_resource (resource : Dict) : Option (PyVal × Dict) :=
  (alookup resource "id").map (fun v => (v, resource))

/-- `FastlyIntegration.update_resource`, request part:
`state.destination[resource_type][_id]["id"]` (a `KeyError` when either
indexing misses) targets one PATCH of `{"data": resource}`. -/
def fastly_update_call (st : DictMap) (_id : String) (resource : Dict) : Option HttpCall := do
  let dest_resource ← alookup st _id
  let dest_id ← alookup dest_resource "id"
  pure { method := .patch, path := fastlyBasePath ++ "/" ++ pyFmt dest_id,
         body := some (.vdict [("data", .vdict resource)]), params := none }

/-- `FastlyIntegration.create_resource`: the cache key is
`resource["attributes"]["name"]` (raising when absent); a cache hit
stores the cached instance into the state store and delegates to
`update_resource`, otherwise one POST of `{"data": resource}`. -/
def fastly_create (cache : DictMap) (st : DictMap) (_id : String) (resource : Dict) :
    Option (DictMap × List HttpCall) := do
  let attrs ← alookup resource "attributes"
  let account_name ←
    match attrs with
    | .vdict ad => alookup ad "name"
    | _ => none
  match alookup cache (pyFmt account_name) with
  | some cached =>
      let st' := ainsert st _id cached
      let call ← fastly_update_call st' _id resource
      pure (st', [call])
  | none =>
      pure (st, [{ method := .post, path := fastlyBasePath,
                   body := some (.vdict [("data", .vdict resource)]), params := none }])

/-- `FastlyIntegration.delete_resource`:
`state.destination[resource_type][_id]["id"]` (a `KeyError` when either
indexing misses) targets one DELETE. -/
def fastly_delete_call (st : DictMap) (_id : String) : Option HttpCall := do
  let dest_resource ← alookup st _id
  let dest_id ← alookup dest_resource "id"
  pure { method := .delete, path := fastlyBasePath ++ "/" ++ pyFmt dest_id,
         body := none, params := none }

/-! ## GCP integration adapter (`datadog_sync/model/gcp_integration.py`) -/

def gcpBasePath : String := "/api/v2/integration/gcp/accounts"

/-- `GCPIntegration.get_resources`: `resp.get("data", [])`. -/
def gcp_get_resources (resp : Dict) : PyVal :=
  pyGet resp "data" (.vlist [])

/-- `GCPIntegration.import_resource` on a pre-supplied instance:
`return resource["id"], resource`. -/
def gcp_import_resource (resource : Dict) : Option (PyVal × Dict) :=
  (alookup resource "id").map (fun v => (v, resource))

/-- `GCPIntegration.update_resource`, request part:
`state.destination[resource_type][_id]["id"]` (a `KeyError` when either
indexing misses) targets one PATCH of `{"data": resource}`. -/
def gcp_update_call (st : DictMap) (_id : String) (resource : Dict) : Option HttpCall := do
  let dest_resource ← alookup st _id
  let dest_id ← alookup dest_resource "id"
  pure { method := .patch, path := gcpBasePath ++ "/" ++ pyFmt dest_id,
         body := some (.vdict [("data", .vdict resource)]), params := none }

/-- `GCPIntegration.create_resource`: the cache key is
`resource.get("attributes", {}).get("client_email")` (an
`AttributeError` when `attributes` is present but not a dict); a truthy
key found in the cache stores the cached instance into the state store
and delegates to `update_resource`, otherwise one POST of
`{"data": resource}`. -/
def gcp_create (cache : DictMap) (st : DictMap) (_id : String) (resource : Dict) :
    Option (DictMap × List HttpCall) := do
  let client_email ← pyValGet (pyGet resource "attributes" (.vdict [])) "client_email" .vnone
  match truthy client_email, alookup cache (pyFmt client_email) with
  | true, some cached =>
      let st' := ainsert st _id cached
      let call ← gcp_update_call st' _id resource
      pure (st', [call])
  | _, _ =>
      pure (st, [{ method := .post, path := gcpBasePath,
                   body := some (.vdict [("data", .vdict resource)]), params := none }])

/-- `GCPIntegration.delete_resource`:
`state.destination[resource_type][_id]["id"]` targets one DELETE. -/
def gcp_delete_call (st : DictMap) (_id : String) : Option HttpCall := do
  let dest_resource ← alookup st _id
  let dest_id ← alookup dest_resource "id"
  pure { method := .delete, path := gcpBasePath ++ "/" ++ pyFmt dest_id,
         body := none, params := none }

/-! ## PagerDuty integration adapter (`datadog_sync/model/pagerduty_integration.py`) -/

def pagerdutyBasePath : String := "/api/v1/integration/pagerduty/configuration/services"

/-- `PagerDutyIntegration.get_resources`: `resp.get("services", [])`. -/
def pagerduty_get_resources (resp : Dict) : PyVal :=
  pyGet resp "services" (.vlist [])

/-- `PagerDutyIntegration.import_resource` on a pre-supplied instance:
`return resource["service_name"], resource`. -/
def pagerduty_import_resource (resource : Dict) : Option (PyVal × Dict) :=
  (alookup resource "service_name").map (fun v => (v, resource))

/-- `PagerDutyIntegration.update_resource`, request part:
`state.destination[resource_type][_id]["service_name"]` (a `KeyError`
when either indexing misses) targets one PUT of the resource. -/
def pagerduty_update_call (st : DictMap) (_id : String) (resource : Dict) : Option HttpCall := do
  let dest_resource ← alookup st _id
  let dest_service_name ← alookup dest_resource "service_name"
  pure { method := .put, path := pagerdutyBasePath ++ "/" ++ pyFmt dest_service_name,
         body := some (.vdict resource), params := none }

/-- `PagerDutyIntegration.create_resource`: the cache key is
`resource["service_name"]` (raising when absent); a cache hit stores the
cached instance into the state store and delegates to `update_resource`,
otherwise one POST. -/
def pagerduty_create (cache : DictMap) (st : DictMap) (_id : String) (resource : Dict) :
    Option (DictMap × List HttpCall) := do
  let service_name ← alookup resource "service_name"
  match alookup cache (pyFmt service_name) with
  | some cached =>
      let st' := ainsert st _id cached
      let call ← pagerduty_update_call st' _id resource
      pure (st', [call])
  | none =>
      pure (st, [{ method := .post, path := pagerdutyBasePath,
                   body := some (.vdict resource), params := none }])

/-- `PagerDutyIntegration.delete_resource`:
`state.destination[resource_type][_id]["service_name"]` targets one
DELETE. -/
def pagerduty_delete_call (st : DictMap) (_id : String) : Option HttpCall := do
  let dest_resource ← alookup st _id
  let dest_service_name ← alookup dest_resource "service_name"
  pure { method := .delete, path := pagerdutyBasePath ++ "/" ++ pyFmt dest_service_name,
         body := none, params := none }

/-! ## Webhooks integration adapter (`datadog_sync/model/webhooks_integration.py`) -/

def webhooksBasePath : String := "/api/v1/integration/webhooks/configuration/webhooks"

/-- `WebhooksIntegration.get_resources`: the API has no list endpoint;
a warning is logged and the empty list returned. -/
def webhooks_get_resources : List PyVal := []

/-- `WebhooksIntegration.import_resource` on a pre-supplied instance:
`return resource["name"], resource`. -/
def webhooks_import_resource (resource : Dict) : Option (PyVal × Dict) :=
  (alookup resource "name").map (fun v => (v, resource))

/-- `WebhooksIntegration.update_resource`, request part:
`state.destination[resource_type][_id]["name"]` (a `KeyError` when
either indexing misses) targets one PUT of the resource. -/
def webhooks_update_call (st : DictMap) (_id : String) (resource : Dict) : Option HttpCall := do
  let dest_resource ← alookup st _id
  let webhook_name ← alookup dest_resource "name"
  pure { method := .put, path := webhooksBasePath ++ "/" ++ pyFmt webhook_name,
         body := some (.vdict resource), params := none }

/-- `WebhooksIntegration.create_resource`: the cache key is
`resource["name"]` (raising when absent); a cache hit stores the cached
instance into the state store and delegates to `update_resource`,
otherwise one POST. -/
def webhooks_create (cache : DictMap) (st : DictMap) (_id : String) (resource : Dict) :
    Option (DictMap × List HttpCall) := do
  let name ← alookup resource "name"
  match alookup cache (pyFmt name) with
  | some cached =>
      let st' := ainsert st _id cached
      let call ← webhooks_update_call st' _id resource
      pure (st', [call])
  | none =>
      pure (st, [{ method := .post, path := webhooksBasePath,
                   body := some (.vdict resource), params := none }])

/-- `WebhooksIntegration.delete_resource`:
`state.destination[resource_type][_id]["name"]` targets one DELETE. -/
def webhooks_delete_call (st : DictMap) (_id : String) : Option HttpCall := do
  let dest_resource ← alookup st _id
  let webhook_name ← alookup dest_resource "name"
  pure { method := .delete, path := webhooksBasePath ++ "/" ++ pyFmt webhook_name,
         body := none, params := none }

/-- A typed HTTP transport error (`CustomClientHTTPError`). -/
structure HttpError where
  status_code : Int

/-- The destination client's `get`, abstracted as a function from the
request path to either a response body or a typed HTTP error. -/
def Fetcher := String → Except HttpError PyVal

/-- Log levels used while building the webhooks destination cache. -/
inductive LogLevel where
  | debug | warning
  deriving DecidableEq

/-- One iteration of the first loop of
`WebhooksIntegration.get_destination_webhooks`: for a state-store entry,
fetch the webhook by its last-known `name`; a 404 drops the entry with a
debug log, any other `CustomClientHTTPError` drops it with a warning. -/
def webhooks_cache_step (fetch : Fetcher) (acc : List (String × PyVal) × List (LogLevel × String))
    (entry : String × Dict) : List (String × PyVal) × List (LogLevel × String) :=
  let webhook_name := pyGetN entry.2 "name"
  if truthy webhook_name then
    match fetch (webhooksBasePath ++ "/" ++ pyFmt webhook_name) with
    | .ok resp => (ainsert acc.1 (pyFmt webhook_name) resp, acc.2)
    | .error e =>
        if e.status_code = 404 then
          (acc.1, acc.2 ++ [(.debug, "Webhook " ++ pyFmt webhook_name ++ " not found at destination")])
        else
          (acc.1, acc.2 ++ [(.warning, "Error fetching webhook " ++ pyFmt webhook_name)])
  else acc

/-- One iteration of the second loop of `get_destination_webhooks`: for a
source state entry whose `name` is not already cached, fetch it from the
destination; a 404 is silently expected, any other
`CustomClientHTTPError` logs a warning. -/
def webhooks_cache_source_step (fetch : Fetcher)
    (acc : List (String × PyVal) × List (LogLevel × String))
    (entry : String × Dict) : List (String × PyVal) × List (LogLevel × String) :=
  let webhook_name := pyGetN entry.2 "name"
  if truthy webhook_name && (alookup acc.1 (pyFmt webhook_name)).isNone then
    match fetch (webhooksBasePath ++ "/" ++ pyFmt webhook_name) with
    | .ok resp => (ainsert acc.1 (pyFmt webhook_name) resp, acc.2)
    | .error e =>
        if e.status_code = 404 then acc
        else (acc.1, acc.2 ++ [(.warning, "Error fetching webhook " ++ pyFmt webhook_name)])
  else acc

/-- `WebhooksIntegration.get_destination_webhooks`: fold the two loops
over the destination and source state-store entries.  The function is
total — every `CustomClientHTTPError` is caught inside the loops. -/
def webhooks_get_destination_webhooks (fetch : Fetcher) (stDest stSrc : DictMap) :
    List (String × PyVal) × List (LogLevel × String) :=
  let afterDest := stDest.foldl (webhooks_cache_step fetch) ([], [])
  stSrc.foldl (webhooks_cache_source_step fetch) afterDest

/-! ## Slack integration channels adapter (`datadog_sync/model/slack_integration_channels.py`) -/

def slackBasePath : String := "/api/v1/integration/slack/configuration/accounts"

/-- `SlackIntegrationChannels._get_composite_id`:
`f"{account_name}:{channel_name}"` with `_account_name` read by
`.get(_, "")` and the channel name by
`.get("channel_name", resource.get("name", ""))`. -/
def slack_get_composite_id (resource : Dict) : String :=
  let account_name := pyGet resource "_account_name" (.vstr "")
  let channel_name := pyGet resource "channel_name" (pyGet resource "name" (.vstr ""))
  pyFmt account_name ++ ":" ++ pyFmt channel_name

/-- Python `composite_id.split(":", 1)` restricted to its two outcomes:
`some (before, after)` splitting at the first colon, `none` when the
string has no colon. -/
def splitFirstColon : List Char → Option (List Char × List Char)
  | [] => none
  | c :: rest =>
      if c = ':' then some ([], rest)
      else (splitFirstColon rest).map (fun p => (c :: p.1, p.2))

/-- `SlackIntegrationChannels._parse_composite_id`: split on the first
colon; a string with no colon parses as `("", composite_id)`. -/
def slack_parse_composite_id (composite_id : String) : String × String :=
  match splitFirstColon composite_id.data with
  | some p => (String.mk p.1, String.mk p.2)
  | none => ("", composite_id)

/-- `SlackIntegrationChannels._prepare_payload`: `dict(resource)` copies
the dict, then `payload.pop("_account_name", None)` removes the internal
tracking field from the copy.  Returns the payload. -/
def slack_prepare_payload (resource : Dict) : Dict :=
  resource.filter (fun p => !(p.1 == "_account_name"))

/-- The heap effect of `_prepare_payload` made explicit: the first
component is the value bound to the caller's `resource` after the call
(the `pop` mutates only the fresh copy made by `dict(resource)`), the
second the returned payload. -/
def slack_prepare_payload_effect (resource : Dict) : Dict × Dict :=
  let payload := resource
  let payload := payload.filter (fun p => !(p.1 == "_account_name"))
  (resource, payload)

/-- `SlackIntegrationChannels.update_resource`, request part: the target
path comes from parsing the passed `_id`; the body is the prepared
payload.  The ambient state store is never read. -/
def slack_update_call (_st : DictMap) (_id : String) (resource : Dict) : HttpCall :=
  let parsed := slack_parse_composite_id _id
  { method := .patch,
    path := slackBasePath ++ "/" ++ parsed.1 ++ "/channels/" ++ parsed.2,
    body := some (.vdict (slack_prepare_payload resource)), params := none }

/-- `SlackIntegrationChannels.create_resource`: when the passed `_id` is
a key of the destination cache, store the cached instance into the state
store and delegate to `update_resource`; otherwise POST the prepared
payload to the account's channels path. -/
def slack_create (cache : DictMap) (st : DictMap) (_id : String) (resource : Dict) :
    DictMap × List HttpCall :=
  match alookup cache _id with
  | some cached =>
      let st' := ainsert st _id cached
      (st', [slack_update_call st' _id resource])
  | none =>
      let account_name := pyGet resource "_account_name" (.vstr "")
      (st, [{ method := .post,
              path := slackBasePath ++ "/" ++ pyFmt account_name ++ "/channels",
              body := some (.vdict (slack_prepare_payload resource)), params := none }])

/-- `SlackIntegrationChannels.delete_resource`: the target path comes
from parsing the passed `_id`; the state store is never read. -/
def slack_delete_call (_id : String) : HttpCall :=
  let parsed := slack_parse_composite_id _id
  { method := .delete,
    path := slackBasePath ++ "/" ++ parsed.1 ++ "/channels/" ++ parsed.2,
    body := none, params := none }

/-! ## Service definition adapter (`datadog_sync/model/service_definition.py`) -/

def serviceDefinitionBasePath : String := "/api/v2/services/definitions"

/-- Python integer coercion for the arithmetic in `_remaining_func`: a
non-numeric `total_count` raises a `TypeError` (`none`). -/
def pyToInt : PyVal → Option Int
  | .vint n => some n
  | .vbool b => some (if b then 1 else 0)
  | _ => none

/-- `_remaining_func` in `service_definition.py`:
`max(0, total_count - page_size * (page_number + 1))` with `total_count`
read as `resp.get("meta", {}).get("page", {}).get("total_count", 0)`.
An `AttributeError`/`TypeError` on a malformed envelope is `none`. -/
def _remaining_func (_idx : Int) (resp : Dict) (page_size : Int) (page_number : Int) :
    Option Int := do
  let meta := pyGet resp "meta" (.vdict [])
  let page ← pyValGet meta "page" (.vdict [])
  let total_count_v ← pyValGet page "total_count" (.vint 0)
  let total_count ← pyToInt total_count_v
  let fetched := page_size * (page_number + 1)
  pure (max 0 (total_count - fetched))

/-- `ServiceDefinition._get_service_name`: schema lookup with fallbacks.
`attributes.schema` is consulted first (`dd-service`, then `name`), then
the resource itself (`dd-service`, `name`), then `resource.get("id", "")`.
A non-dict `attributes` value raises (`none`); the unreached case of a
present non-dict `schema` value is likewise mapped to `none`. -/
def sd_get_service_name (resource : Dict) : Option PyVal :=
  let direct : Option PyVal :=
    match alookup resource "dd-service" with
    | some v => some v
    | none =>
        match alookup resource "name" with
        | some v => some v
        | none => some (pyGet resource "id" (.vstr ""))
  match alookup resource "attributes" with
  | none => direct
  | some attrs =>
      match pyValGet attrs "schema" (.vdict []) with
      | none => none
      | some schema =>
          match schema with
          | .vdict sd =>
              match alookup sd "dd-service" with
              | some v => some v
              | none =>
                  match alookup sd "name" with
                  | some v => some v
                  | none => direct
          | _ => none

/-- `ServiceDefinition._extract_schema_data`: the nested
`attributes.schema` when present, else the resource itself. -/
def sd_extract_schema_data (resource : Dict) : PyVal :=
  match alookup resource "attributes" with
  | some (.vdict ad) =>
      match alookup ad "schema" with
      | some schema => schema
      | none => .vdict resource
  | _ => .vdict resource

/-- `ServiceDefinition.update_resource`, request part: one POST of the
extracted schema to the base path (the API uses POST for update); no
per-identity target, no state-store read. -/
def sd_update_call (resource : Dict) : HttpCall :=
  { method := .post, path := serviceDefinitionBasePath,
    body := some (sd_extract_schema_data resource), params := none }

/-- `ServiceDefinition.create_resource`: a cache hit on the passed `_id`
stores the cached instance into the state store and delegates to
`update_resource`; otherwise the same POST of the extracted schema. -/
def sd_create (cache : DictMap) (st : DictMap) (_id : String) (resource : Dict) :
    DictMap × List HttpCall :=
  match alookup cache _id with
  | some cached =>
      let st' := ainsert st _id cached
      (st', [sd_update_call resource])
  | none => (st, [sd_update_call resource])

/-- `ServiceDefinition.delete_resource`: one DELETE at
`base_path/{_id}`; the state store is never read. -/
def sd_delete_call (_id : String) : HttpCall :=
  { method := .delete, path := serviceDefinitionBasePath ++ "/" ++ _id,
    body := none, params := none }

/-! ## Spec-modelled reconciliation run (AWS)

The Reconciliation Engine's apply loop (in `datadog_sync/utils`) and the
destination platform's API server are not part of the adapter sources;
they are modelled from the spec for the idempotence property. -/

/-- Modelled from the spec: the destination platform's reaction to the
adapter's write calls (the server behind the injected HTTP client, not
code of this repository).  The destination account is a map from
Identity Key to integration; a create (POST) adds the posted body under
its Identity Key, and an update (PUT) overwrites the integration the
query params identify — per `aws_integration.py` the params re-specify
exactly the composite natural key, so the written body lands under its
own Identity Key.  Other calls leave the account unchanged. -/
def awsServerApply (dest : DictMap) (c : HttpCall) : DictMap :=
  match c.method, c.body with
  | .post, some (.vdict r) => ainsert dest (aws_get_resource_id r) r
  | .put, some (.vdict r) => ainsert dest (aws_get_resource_id r) r
  | _, _ => dest

/-- Modelled from the spec: the Reconciliation Engine's apply pass
(`datadog_sync/utils`, not under `src/`).  Per spec §4.4/§4.6 the
Destination Cache is built once by `pre_apply_hook` before any write
(for AWS, the destination listing indexed by Identity Key — here the
destination account map itself), then `create_resource` runs for each
source instance; the server state advances by the calls issued. -/
def awsApplyPass (cache : DictMap) :
    List (String × Dict) → DictMap → DictMap → List HttpCall →
    DictMap × DictMap × List HttpCall
  | [], dest, st, calls => (dest, st, calls)
  | (sid, r) :: rest, dest, st, calls =>
      let p := aws_create cache st sid r
      awsApplyPass cache rest (p.2.foldl awsServerApply dest) p.1 (calls ++ p.2)

/-- Modelled from the spec: one full reconciliation run for the AWS
adapter — build the Destination Cache from the current destination
account, then apply every source instance.  Returns the destination
account after the run, the state store after the run and the calls
issued. -/
def awsRun (dest0 : DictMap) (st0 : DictMap) (sources : List (String × Dict)) :
    DictMap × DictMap × List HttpCall :=
  awsApplyPass dest0 sources dest0 st0 []

/-! ## Spec-modelled pagination driver -/

/-- Modelled from the spec: the Pagination Driver (`paginated_request`
in `datadog_sync/utils/custom_client.py`, which is not under `src/`).
Per spec §4.3 it repeatedly issues a page request, advancing the page
number and accumulating the page's items, and stops when the
resource-supplied remaining function returns 0 or the response is
empty.  `fuel` bounds the recursion; the result is the number of page
fetches performed (a malformed envelope aborts after its fetch). -/
def paginationFetchCount (fetch : Nat → Dict) (page_size : Int) :
    Nat → Nat → Nat
  | 0, _ => 0
  | fuel + 1, page_number =>
      let resp := fetch page_number
      let items :=
        match pyGet resp "data" (.vlist []) with
        | .vlist l => l
        | _ => []
      match _remaining_func page_number resp page_size page_number with
      | none => 1
      | some remaining =>
          if remaining ≤ 0 || items.isEmpty then 1
          else 1 + paginationFetchCount fetch page_size fuel (page_number + 1)

/-- A well-formed service-definition page envelope with the given total
count and one item of page data. -/
def sdPage (total_count : Int) : Dict :=
  [("data", .vlist [.vint 0]),
   ("meta", .vdict [("page", .vdict [("total_count", .vint total_count)])])]


/-! ## Lemmas -/

theorem alookup_append_left {α : Type} {l₁ : List (String × α)} {k : String} {v : α}
    (l₂ : List (String × α)) (h : alookup l₁ k = some v) :
    alookup (l₁ ++ l₂) k = some v := by
  induction l₁ with
  | nil => simp [alookup] at h
  | cons p rest ih =>
      obtain ⟨k₀, v₀⟩ := p
      by_cases hk : k₀ = k
      · simpa [alookup, hk] using h
      · simp only [alookup, if_neg hk, List.cons_append] at h ⊢
        exact ih h

theorem alookup_append_right {α : Type} {l₁ : List (String × α)} {k : String}
    (l₂ : List (String × α)) (h : alookup l₁ k = none) :
    alookup (l₁ ++ l₂) k = alookup l₂ k := by
  induction l₁ with
  | nil => rfl
  | cons p rest ih =>
      obtain ⟨k₀, v₀⟩ := p
      by_cases hk : k₀ = k
      · simp [alookup, hk] at h
      · simp only [alookup, if_neg hk, List.cons_append] at h ⊢
        exact ih h

theorem alookup_areplace_self {α : Type} (l : List (String × α)) (k : String) (v : α)
    (h : (alookup l k).isSome) :
    alookup (areplace l k v) k = some v := by
  induction l with
  | nil => simp [alookup] at h
  | cons p rest ih =>
      obtain ⟨k₀, v₀⟩ := p
      by_cases hk : k₀ = k
      · subst hk
        simp [areplace, alookup]
      · simp only [alookup, if_neg hk] at h
        simp [areplace, alookup, hk, ih h]

theorem alookup_areplace_ne {α : Type} (l : List (String × α)) (k k' : String) (v : α)
    (h : k' ≠ k) :
    alookup (areplace l k v) k' = alookup l k' := by
  induction l with
  | nil => rfl
  | cons p rest ih =>
      obtain ⟨k₀, v₀⟩ := p
      by_cases hk : k₀ = k
      · subst hk
        simp [areplace, alookup, Ne.symm h, ih]
      · by_cases hk' : k₀ = k'
        · subst hk'
          simp [areplace, alookup, hk]
        · simp [areplace, alookup, hk, hk', ih]

theorem alookup_ainsert_self {α : Type} (l : List (String × α)) (k : String) (v : α) :
    alookup (ainsert l k v) k = some v := by
  unfold ainsert
  cases he : alookup l k with
  | some w =>
      have h : (alookup l k).isSome := by simp [he]
      simp only [he, Option.isSome_some, if_true]
      exact alookup_areplace_self l k v h
  | none =>
      simp only [he, Option.isSome_none, Bool.false_eq_true, if_false]
      rw [alookup_append_right _ he]
      simp [alookup]

theorem alookup_ainsert_ne {α : Type} (l : List (String × α)) (k k' : String) (v : α)
    (h : k' ≠ k) :
    alookup (ainsert l k v) k' = alookup l k' := by
  unfold ainsert
  cases hs : alookup l k with
  | some w =>
      simp only [hs, Option.isSome_some, if_true]
      exact alookup_areplace_ne l k k' v h
  | none =>
      simp only [hs, Option.isSome_none, Bool.false_eq_true, if_false]
      cases he : alookup l k' with
      | none =>
          rw [alookup_append_right _ he]
          simp [alookup, Ne.symm h]
      | some w => exact alookup_append_left _ he

theorem isSome_alookup_ainsert {α : Type} (l : List (String × α)) (k k' : String) (v : α)
    (h : (alookup l k).isSome) :
    (alookup (ainsert l k' v) k).isSome := by
  by_cases hk : k = k'
  · subst hk
    rw [alookup_ainsert_self]
    rfl
  · rw [alookup_ainsert_ne l k' k v hk]
    exact h

theorem alookup_filter_ne_key {α : Type} (l : List (String × α)) (bad k : String)
    (h : k ≠ bad) :
    alookup (l.filter (fun p => !(p.1 == bad))) k = alookup l k := by
  induction l with
  | nil => rfl
  | cons p rest ih =>
      obtain ⟨k₀, v₀⟩ := p
      by_cases hb : k₀ = bad
      · subst hb
        simp [List.filter_cons, alookup, Ne.symm h, ih]
      · by_cases hk : k₀ = k
        · subst hk
          simp [List.filter_cons, hb, alookup]
        · simp [List.filter_cons, hb, alookup, hk, ih]

theorem alookup_filter_bad {α : Type} (l : List (String × α)) (bad : String) :
    alookup (l.filter (fun p => !(p.1 == bad))) bad = none := by
  induction l with
  | nil => rfl
  | cons p rest ih =>
      obtain ⟨k₀, v₀⟩ := p
      by_cases hb : k₀ = bad
      · subst hb
        simpa [List.filter_cons] using ih
      · simp [List.filter_cons, hb, alookup, ih]


theorem isSome_awsServerApply (dest : DictMap) (c : HttpCall) (k : String)
    (h : (alookup dest k).isSome) : (alookup (awsServerApply dest c) k).isSome := by
  unfold awsServerApply
  rcases c with ⟨m, p, b, q⟩
  cases m <;> cases b with
  | _ =>
      first
      | exact h
      | (rename_i v; cases v <;> first | exact h | exact isSome_alookup_ainsert _ _ _ _ h)

theorem isSome_foldl_awsServerApply (calls : List HttpCall) (dest : DictMap) (k : String)
    (h : (alookup dest k).isSome) :
    (alookup (calls.foldl awsServerApply dest) k).isSome := by
  induction calls generalizing dest with
  | nil => exact h
  | cons c rest ih => exact ih _ (isSome_awsServerApply dest c k h)

theorem aws_create_calls_establish (cache st : DictMap) (sid : String) (r : Dict)
    (dest : DictMap) :
    (alookup ((aws_create cache st sid r).2.foldl awsServerApply dest)
      (aws_get_resource_id r)).isSome := by
  unfold aws_create
  cases hc : alookup cache (aws_get_resource_id r) with
  | some cached =>
      simp only [hc, List.foldl]
      unfold awsServerApply aws_update_call
      simp only [alookup_ainsert_self]
      rfl
  | none =>
      simp only [hc, List.foldl]
      unfold awsServerApply
      simp only [alookup_ainsert_self]
      rfl

theorem isSome_awsApplyPass (cache : DictMap) (sources : List (String × Dict))
    (dest st : DictMap) (calls : List HttpCall) (k : String)
    (h : (alookup dest k).isSome) :
    (alookup (awsApplyPass cache sources dest st calls).1 k).isSome := by
  induction sources generalizing dest st calls with
  | nil => exact h
  | cons p rest ih =>
      obtain ⟨sid, r⟩ := p
      exact ih _ _ _ (isSome_foldl_awsServerApply _ _ _ h)

theorem awsApplyPass_covers (cache : DictMap) (sources : List (String × Dict))
    (dest st : DictMap) (calls : List HttpCall) (sid : String) (r : Dict)
    (hmem : (sid, r) ∈ sources) :
    (alookup (awsApplyPass cache sources dest st calls).1 (aws_get_resource_id r)).isSome := by
  induction sources generalizing dest st calls with
  | nil => cases hmem
  | cons p rest ih =>
      obtain ⟨sid₀, r₀⟩ := p
      simp only [awsApplyPass]
      rcases List.mem_cons.mp hmem with heq | htail
      · obtain ⟨h1, h2⟩ := Prod.mk.injEq .. ▸ (by exact heq : (sid, r) = (sid₀, r₀))
        subst h2
        exact isSome_awsApplyPass _ _ _ _ _ _ (aws_create_calls_establish cache st sid₀ r dest)
      · exact ih _ _ _ htail

theorem countPosts_append (a b : List HttpCall) :
    countPosts (a ++ b) = countPosts a + countPosts b := by
  unfold countPosts
  rw [List.filter_append, List.length_append]

theorem awsApplyPass_no_posts (cache : DictMap) (sources : List (String × Dict))
    (dest st : DictMap) (calls : List HttpCall)
    (hcov : ∀ sid r, (sid, r) ∈ sources → (alookup cache (aws_get_resource_id r)).isSome) :
    countPosts (awsApplyPass cache sources dest st calls).2.2 = countPosts calls := by
  induction sources generalizing dest st calls with
  | nil => rfl
  | cons p rest ih =>
      obtain ⟨sid₀, r₀⟩ := p
      have hc : (alookup cache (aws_get_resource_id r₀)).isSome :=
        hcov sid₀ r₀ (List.mem_cons_self _ _)
      have hrest : ∀ sid r, (sid, r) ∈ rest → (alookup cache (aws_get_resource_id r)).isSome :=
        fun sid r hm => hcov sid r (List.mem_cons_of_mem _ hm)
      cases hcl : alookup cache (aws_get_resource_id r₀) with
      | none => rw [hcl] at hc; cases hc
      | some cached =>
          show countPosts (awsApplyPass cache rest _ _
            (calls ++ (aws_create cache st sid₀ r₀).2)).2.2 = countPosts calls
          rw [ih _ _ _ hrest, countPosts_append]
          unfold aws_create
          simp only [hcl]
          rfl

/-! ## A splitting lemma for the Slack composite id -/

theorem splitFirstColon_append (a b : List Char) (h : ∀ c ∈ a, c ≠ ':') :
    splitFirstColon (a ++ ':' :: b) = some (a, b) := by
  induction a with
  | nil => simp [splitFirstColon]
  | cons c rest ih =>
      have hc : c ≠ ':' := h c (List.mem_cons_self _ _)
      have hrest : ∀ c ∈ rest, c ≠ ':' := fun c hm => h c (List.mem_cons_of_mem _ hm)
      simp [splitFirstColon, hc, ih hrest]

/-- Soundness of one destination-loop step of the webhooks cache build:
every cache binding it leaves in place was observed via a successful
fetch of its key's path. -/
theorem webhooks_cache_step_sound (fetch : Fetcher)
    (acc : List (String × PyVal) × List (LogLevel × String)) (entry : String × Dict)
    (h : ∀ k v, alookup acc.1 k = some v → fetch (webhooksBasePath ++ "/" ++ k) = .ok v) :
    ∀ k v, alookup (webhooks_cache_step fetch acc entry).1 k = some v →
      fetch (webhooksBasePath ++ "/" ++ k) = .ok v := by
  intro k v
  unfold webhooks_cache_step
  cases ht : truthy (pyGetN entry.2 "name") with
  | false => simpa [ht] using h k v
  | true =>
      simp only [ht, if_true]
      cases hf : fetch (webhooksBasePath ++ "/" ++ pyFmt (pyGetN entry.2 "name")) with
      | ok resp =>
          intro hk
          by_cases hkey : k = pyFmt (pyGetN entry.2 "name")
          · subst hkey
            rw [alookup_ainsert_self] at hk
            cases hk
            exact hf
          · rw [alookup_ainsert_ne _ _ _ _ hkey] at hk
            exact h k v hk
      | error e =>
          by_cases h404 : e.status_code = 404 <;> simp [h404] <;> exact h k v

/-- Soundness of one source-loop step of the webhooks cache build. -/
theorem webhooks_cache_source_step_sound (fetch : Fetcher)
    (acc : List (String × PyVal) × List (LogLevel × String)) (entry : String × Dict)
    (h : ∀ k v, alookup acc.1 k = some v → fetch (webhooksBasePath ++ "/" ++ k) = .ok v) :
    ∀ k v, alookup (webhooks_cache_source_step fetch acc entry).1 k = some v →
      fetch (webhooksBasePath ++ "/" ++ k) = .ok v := by
  intro k v
  unfold webhooks_cache_source_step
  cases ht : truthy (pyGetN entry.2 "name") && (alookup acc.1 (pyFmt (pyGetN entry.2 "name"))).isNone with
  | false => simpa [ht] using h k v
  | true =>
      simp only [ht, if_true]
      cases hf : fetch (webhooksBasePath ++ "/" ++ pyFmt (pyGetN entry.2 "name")) with
      | ok resp =>
          intro hk
          by_cases hkey : k = pyFmt (pyGetN entry.2 "name")
          · subst hkey
            rw [alookup_ainsert_self] at hk
            cases hk
            exact hf
          · rw [alookup_ainsert_ne _ _ _ _ hkey] at hk
            exact h k v hk
      | error e =>
          by_cases h404 : e.status_code = 404 <;> simp [h404] <;> exact h k v

theorem webhooks_foldl_dest_sound (fetch : Fetcher) (entries : DictMap)
    (acc : List (String × PyVal) × List (LogLevel × String))
    (h : ∀ k v, alookup acc.1 k = some v → fetch (webhooksBasePath ++ "/" ++ k) = .ok v) :
    ∀ k v, alookup (entries.foldl (webhooks_cache_step fetch) acc).1 k = some v →
      fetch (webhooksBasePath ++ "/" ++ k) = .ok v := by
  induction entries generalizing acc with
  | nil => exact h
  | cons e rest ih => exact ih _ (webhooks_cache_step_sound fetch acc e h)

theorem webhooks_foldl_src_sound (fetch : Fetcher) (entries : DictMap)
    (acc : List (String × PyVal) × List (LogLevel × String))
    (h : ∀ k v, alookup acc.1 k = some v → fetch (webhooksBasePath ++ "/" ++ k) = .ok v) :
    ∀ k v, alookup (entries.foldl (webhooks_cache_source_step fetch) acc).1 k = some v →
      fetch (webhooksBasePath ++ "/" ++ k) = .ok v := by
  induction entries generalizing acc with
  | nil => exact h
  | cons e rest ih => exact ih _ (webhooks_cache_source_step_sound fetch acc e h)

/-! ## Claim theorems -/

/-- C5: the service-definition pagination remaining function computes
`max(0, total_count - page_size * (page_number + 1))` from
`resp.meta.page.total_count`; with total count 250 and page size 100 it
is positive at page numbers 0 and 1 and zero at page index 2, so the
driver performs exactly 3 page fetches; and an envelope with no count
metadata makes it return 0 on the first page rather than raising or
looping. -/
theorem sd_remaining_func_spec :
    (∀ idx page_size page_number total_count,
      _remaining_func idx (sdPage total_count) page_size page_number =
        some (max 0 (total_count - page_size * (page_number + 1)))) ∧
    (∀ idx, _remaining_func idx (sdPage 250) 100 0 = some 150 ∧
      _remaining_func idx (sdPage 250) 100 1 = some 50 ∧
      _remaining_func idx (sdPage 250) 100 2 = some 0) ∧
    paginationFetchCount (fun _ => sdPage 250) 100 10 0 = 3 ∧
    (∀ idx resp page_size, alookup resp "meta" = none → 0 ≤ page_size →
      _remaining_func idx resp page_size 0 = some 0) := by
  refine ⟨?_, ?_, ?_, ?_⟩
  · intro idx page_size page_number total_count
    rfl
  · intro idx
    refine ⟨?_, ?_, ?_⟩ <;> rfl
  · rfl
  · intro idx resp page_size hm hps
    simp only [_remaining_func, pyGet, hm, Option.getD_none, pyValGet, alookup, pyToInt,
      Option.bind_eq_bind, Option.some_bind]
    congr 1
    omega

/-- C6: parsing a Slack composite id splits on the first colon only:
`"workspace:#channel:with:colons"` parses to
`("workspace", "#channel:with:colons")`, and for every account name
without a colon and every channel name, parsing the composed id
`account:channel` is the identity (with `_get_composite_id` composing
exactly that string). -/
theorem slack_composite_split_spec :
    slack_parse_composite_id "workspace:#channel:with:colons" =
      ("workspace", "#channel:with:colons") ∧
    (∀ account channel : String, (∀ c ∈ account.data, c ≠ ':') →
      slack_parse_composite_id (account ++ ":" ++ channel) = (account, channel)) ∧
    (∀ (resource : Dict) (a c : String),
      alookup resource "_account_name" = some (.vstr a) →
      alookup resource "channel_name" = some (.vstr c) →
      slack_get_composite_id resource = a ++ ":" ++ c) := by
  refine ⟨by decide, ?_, ?_⟩
  · intro account channel h
    obtain ⟨la⟩ := account
    obtain ⟨lc⟩ := channel
    have hdata : (String.mk la ++ ":" ++ String.mk lc).data = la ++ ':' :: lc := by
      simp
    unfold slack_parse_composite_id
    rw [hdata, splitFirstColon_append la lc h]
  · intro resource a c ha hc
    unfold slack_get_composite_id
    simp [pyGet, ha, hc, pyFmt]

/-- C7: each listing adapter degrades to an empty sequence when the
response body lacks its expected envelope key (AWS `accounts`,
PagerDuty `services`, Fastly/GCP `data`) or, for Azure, when the body is
not a list. -/
theorem get_resources_missing_envelope :
    (∀ resp : Dict, alookup resp "accounts" = none → aws_get_resources resp = .vlist []) ∧
    (∀ resp : Dict, alookup resp "services" = none → pagerduty_get_resources resp = .vlist []) ∧
    (∀ resp : Dict, alookup resp "data" = none →
      fastly_get_resources resp = .vlist [] ∧ gcp_get_resources resp = .vlist []) ∧
    (∀ resp : PyVal, (∀ l, resp ≠ .vlist l) → azure_get_resources resp = []) := by
  refine ⟨?_, ?_, ?_, ?_⟩
  · intro resp h
    simp [aws_get_resources, pyGet, h]
  · intro resp h
    simp [pagerduty_get_resources, pyGet, h]
  · intro resp h
    exact ⟨by simp [fastly_get_resources, pyGet, h], by simp [gcp_get_resources, pyGet, h]⟩
  · intro resp h
    cases resp with
    | vlist l => exact absurd rfl (h l)
    | _ => rfl

/-- C10: the Slack payload preparation removes exactly the internal
`_account_name` field, leaves every other field unchanged, does not
mutate its input, and both `create_resource` and `update_resource` send
exactly the prepared payload as request body. -/
theorem slack_payload_frame_spec :
    (∀ resource : Dict, alookup (slack_prepare_payload resource) "_account_name" = none) ∧
    (∀ (resource : Dict) (k : String), k ≠ "_account_name" →
      alookup (slack_prepare_payload resource) k = alookup resource k) ∧
    (∀ resource : Dict, (slack_prepare_payload_effect resource).1 = resource ∧
      (slack_prepare_payload_effect resource).2 = slack_prepare_payload resource) ∧
    (∀ (st : DictMap) (i : String) (resource : Dict),
      (slack_update_call st i resource).body = some (.vdict (slack_prepare_payload resource))) ∧
    (∀ (cache st : DictMap) (i : String) (resource : Dict),
      ∀ c ∈ (slack_create cache st i resource).2,
        c.body = some (.vdict (slack_prepare_payload resource))) := by
  refine ⟨?_, ?_, ?_, ?_, ?_⟩
  · intro resource
    exact alookup_filter_bad resource "_account_name"
  · intro resource k hk
    exact alookup_filter_ne_key resource "_account_name" k hk
  · intro resource
    exact ⟨rfl, rfl⟩
  · intro st i resource
    rfl
  · intro cache st i resource c hc
    unfold slack_create at hc
    cases hcl : alookup cache i with
    | some cached =>
        rw [hcl] at hc
        simp only [List.mem_singleton] at hc
        subst hc
        rfl
    | none =>
        rw [hcl] at hc
        simp only [List.mem_singleton] at hc
        subst hc
        rfl

/-- Witness for `sd_remaining_func_spec` at total count 250, page size
100, page index 2, and at an envelope with no count metadata. -/
theorem sd_remaining_func_spec_witness :
    _remaining_func 0 (sdPage 250) 100 2 = some 0 ∧
    _remaining_func 0 [("data", .vlist [])] 100 0 = some 0 := by
  refine ⟨(sd_remaining_func_spec.2.1 0).2.2, ?_⟩
  exact sd_remaining_func_spec.2.2.2 0 [("data", .vlist [])] 100 rfl (by decide)

/-- Witness for `slack_composite_split_spec` on a concrete account and
channel. -/
theorem slack_composite_split_spec_witness :
    slack_parse_composite_id ("workspace" ++ ":" ++ "#chan") = ("workspace", "#chan") ∧
    slack_get_composite_id [("_account_name", .vstr "ws"), ("channel_name", .vstr "ch")] =
      "ws" ++ ":" ++ "ch" := by
  constructor
  · exact slack_composite_split_spec.2.1 "workspace" "#chan" (by decide)
  · exact slack_composite_split_spec.2.2 _ "ws" "ch" rfl rfl

/-- Witness for `get_resources_missing_envelope` on concrete bodies. -/
theorem get_resources_missing_envelope_witness :
    aws_get_resources [("other", .vnone)] = .vlist [] ∧
    pagerduty_get_resources [] = .vlist [] ∧
    fastly_get_resources [] = .vlist [] ∧
    azure_get_resources (.vdict []) = [] := by
  refine ⟨?_, ?_, ?_, ?_⟩
  · exact get_resources_missing_envelope.1 _ rfl
  · exact get_resources_missing_envelope.2.1 [] rfl
  · exact (get_resources_missing_envelope.2.2.1 [] rfl).1
  · exact get_resources_missing_envelope.2.2.2 _ (fun l h => PyVal.noConfusion h)

/-- Witness for `slack_payload_frame_spec` on a concrete resource. -/
theorem slack_payload_frame_spec_witness :
    alookup (slack_prepare_payload
      [("_account_name", .vstr "ws"), ("display_name", .vstr "x")]) "display_name" =
      some (.vstr "x") := by
  have h := slack_payload_frame_spec.2.1
    [("_account_name", .vstr "ws"), ("display_name", .vstr "x")] "display_name" (by decide)
  rw [h]
  rfl

/-- C3 counterexample: the Fastly adapter's `import_resource` on an
instance with every identity field absent raises a `KeyError`
(`resource["id"]`) instead of returning a degenerate key string. -/
theorem fastly_import_empty_raises : fastly_import_resource [] = none := rfl

/-- C3 amended: the composite identity resolvers (AWS, Azure, Slack,
Service Definition) are total and return a degenerate key (`":"`, `""`)
when all composing fields are absent, but the single-natural-key
adapters (Fastly, GCP, PagerDuty, Webhooks) raise a `KeyError` in
`import_resource` when the identity field is missing from the
instance. -/
theorem degenerate_identity_resolution :
    (∀ r : Dict, alookup r "account_id" = none → alookup r "role_name" = none →
      alookup r "access_key_id" = none → aws_get_resource_id r = ":") ∧
    (∀ r : Dict, alookup r "tenant_name" = none → alookup r "client_id" = none →
      azure_get_resource_id r = ":") ∧
    (∀ r : Dict, alookup r "_account_name" = none → alookup r "channel_name" = none →
      alookup r "name" = none → slack_get_composite_id r = ":") ∧
    (∀ r : Dict, alookup r "attributes" = none → alookup r "dd-service" = none →
      alookup r "name" = none → alookup r "id" = none →
      sd_get_service_name r = some (.vstr "")) ∧
    (∀ r : Dict, alookup r "id" = none →
      fastly_import_resource r = none ∧ gcp_import_resource r = none) ∧
    (∀ r : Dict, alookup r "service_name" = none → pagerduty_import_resource r = none) ∧
    (∀ r : Dict, alookup r "name" = none → webhooks_import_resource r = none) := by
  refine ⟨?_, ?_, ?_, ?_, ?_, ?_, ?_⟩
  · intro r h1 h2 h3
    simp [aws_get_resource_id, pyGet, h1, h2, h3, truthy, pyFmt]
  · intro r h1 h2
    simp [azure_get_resource_id, pyGet, h1, h2, pyFmt]
  · intro r h1 h2 h3
    simp [slack_get_composite_id, pyGet, h1, h2, h3, pyFmt]
  · intro r h1 h2 h3 h4
    simp [sd_get_service_name, pyGet, h1, h2, h3, h4]
  · intro r h
    exact ⟨by simp [fastly_import_resource, h], by simp [gcp_import_resource, h]⟩
  · intro r h
    simp [pagerduty_import_resource, h]
  · intro r h
    simp [webhooks_import_resource, h]

/-- Witness for `degenerate_identity_resolution` at the empty
instance. -/
theorem degenerate_identity_resolution_witness :
    aws_get_resource_id [] = ":" ∧ azure_get_resource_id [] = ":" ∧
    slack_get_composite_id [] = ":" ∧ sd_get_service_name [] = some (.vstr "") ∧
    gcp_import_resource [] = none ∧ pagerduty_import_resource [] = none ∧
    webhooks_import_resource [] = none := by
  refine ⟨?_, ?_, ?_, ?_, ?_, ?_, ?_⟩
  · exact degenerate_identity_resolution.1 [] rfl rfl rfl
  · exact degenerate_identity_resolution.2.1 [] rfl rfl
  · exact degenerate_identity_resolution.2.2.1 [] rfl rfl rfl
  · exact degenerate_identity_resolution.2.2.2.1 [] rfl rfl rfl rfl
  · exact (degenerate_identity_resolution.2.2.2.2.1 [] rfl).2
  · exact degenerate_identity_resolution.2.2.2.2.2.1 [] rfl
  · exact degenerate_identity_resolution.2.2.2.2.2.2 [] rfl

/-- C4 counterexample: the AWS adapter's `delete_resource` for an
identity with no State Store entry silently proceeds — it issues a
DELETE whose body degrades to `{"account_id": None}` — instead of
raising. -/
theorem aws_delete_missing_state_proceeds :
    aws_delete_call [] "missing-id" =
      { method := .delete, path := awsBasePath,
        body := some (.vdict [("account_id", .vnone)]), params := none } := rfl

/-- C4 amended: for the Fastly, GCP, PagerDuty and Webhooks adapters,
`update_resource` and `delete_resource` raise a `KeyError` when the
identity has no State Store entry; the AWS and Azure adapters instead
proceed with degraded `None`-valued identifiers (`.get(_id, {})`), and
Slack and Service Definition never consult the State Store for the
target. -/
theorem missing_state_entry_behavior :
    (∀ (st : DictMap) (i : String) (r : Dict), alookup st i = none →
      fastly_update_call st i r = none ∧ fastly_delete_call st i = none ∧
      gcp_update_call st i r = none ∧ gcp_delete_call st i = none ∧
      pagerduty_update_call st i r = none ∧ pagerduty_delete_call st i = none ∧
      webhooks_update_call st i r = none ∧ webhooks_delete_call st i = none) ∧
    (∀ (st : DictMap) (i : String), alookup st i = none →
      aws_delete_call st i =
        { method := .delete, path := awsBasePath,
          body := some (.vdict [("account_id", .vnone)]), params := none } ∧
      azure_delete_call st i =
        { method := .delete, path := azureBasePath,
          body := some (.vdict [("tenant_name", .vnone), ("client_id", .vnone)]),
          params := none }) := by
  constructor
  · intro st i r h
    refine ⟨?_, ?_, ?_, ?_, ?_, ?_, ?_, ?_⟩ <;>
      simp [fastly_update_call, fastly_delete_call, gcp_update_call, gcp_delete_call,
        pagerduty_update_call, pagerduty_delete_call, webhooks_update_call,
        webhooks_delete_call, h]
  · intro st i h
    constructor
    · simp [aws_delete_call, h, pyGetN, pyGet, alookup, truthy]
    · simp [azure_delete_call, h, pyGetN, pyGet, alookup]

/-- Witness for `missing_state_entry_behavior` at the empty state
store. -/
theorem missing_state_entry_behavior_witness :
    fastly_update_call [] "x" [] = none ∧
    azure_delete_call [] "x" =
      { method := .delete, path := azureBasePath,
        body := some (.vdict [("tenant_name", .vnone), ("client_id", .vnone)]),
        params := none } := by
  exact ⟨(missing_state_entry_behavior.1 [] "x" [] rfl).1,
    (missing_state_entry_behavior.2 [] "x" rfl).2⟩

/-- C2 counterexample: the Azure adapter's `update_resource` does not
resolve its write target from the State Store — with a State Store entry
recording destination identifiers `dest-tenant`/`dest-client`, the PUT
it issues is identical to the one issued with an empty State Store, and
its body carries the passed resource's own `src-tenant`/`src-client`. -/
theorem azure_update_ignores_state_store :
    azure_update_call
        [("id1", [("tenant_name", .vstr "dest-tenant"), ("client_id", .vstr "dest-client")])]
        "id1" [("tenant_name", .vstr "src-tenant"), ("client_id", .vstr "src-client")] =
      azure_update_call [] "id1"
        [("tenant_name", .vstr "src-tenant"), ("client_id", .vstr "src-client")] ∧
    (azure_update_call
        [("id1", [("tenant_name", .vstr "dest-tenant"), ("client_id", .vstr "dest-client")])]
        "id1" [("tenant_name", .vstr "src-tenant"), ("client_id", .vstr "src-client")]).body =
      some (.vdict [("tenant_name", .vstr "src-tenant"), ("client_id", .vstr "src-client")]) :=
  ⟨rfl, rfl⟩

/-- C2 amended: `update_resource` and `delete_resource` resolve the
destination target from the State Store entry for the Fastly, GCP,
PagerDuty and Webhooks adapters (and AWS reads the entry with fallbacks,
its delete shown under the C4 theorems); the Azure update and the Slack
update never consult the State Store — Azure identifies the target by
the request body taken from the passed resource and Slack parses the
target out of the identity string. -/
theorem state_store_target_resolution :
    (∀ (st : DictMap) (i : String) (r d : Dict) (v : PyVal),
      alookup st i = some d → alookup d "id" = some v →
      fastly_update_call st i r = some
        { method := .patch, path := fastlyBasePath ++ "/" ++ pyFmt v,
          body := some (.vdict [("data", .vdict r)]), params := none } ∧
      fastly_delete_call st i = some
        { method := .delete, path := fastlyBasePath ++ "/" ++ pyFmt v,
          body := none, params := none } ∧
      gcp_update_call st i r = some
        { method := .patch, path := gcpBasePath ++ "/" ++ pyFmt v,
          body := some (.vdict [("data", .vdict r)]), params := none } ∧
      gcp_delete_call st i = some
        { method := .delete, path := gcpBasePath ++ "/" ++ pyFmt v,
          body := none, params := none }) ∧
    (∀ (st : DictMap) (i : String) (r d : Dict) (v : PyVal),
      alookup st i = some d → alookup d "service_name" = some v →
      pagerduty_update_call st i r = some
        { method := .put, path := pagerdutyBasePath ++ "/" ++ pyFmt v,
          body := some (.vdict r), params := none } ∧
      pagerduty_delete_call st i = some
        { method := .delete, path := pagerdutyBasePath ++ "/" ++ pyFmt v,
          body := none, params := none }) ∧
    (∀ (st : DictMap) (i : String) (r d : Dict) (v : PyVal),
      alookup st i = some d → alookup d "name" = some v →
      webhooks_update_call st i r = some
        { method := .put, path := webhooksBasePath ++ "/" ++ pyFmt v,
          body := some (.vdict r), params := none } ∧
      webhooks_delete_call st i = some
        { method := .delete, path := webhooksBasePath ++ "/" ++ pyFmt v,
          body := none, params := none }) ∧
    (∀ (st₁ st₂ : DictMap) (i : String) (r : Dict),
      azure_update_call st₁ i r = azure_update_call st₂ i r) ∧
    (∀ (st₁ st₂ : DictMap) (i : String) (r : Dict),
      slack_update_call st₁ i r = slack_update_call st₂ i r) := by
  refine ⟨?_, ?_, ?_, ?_, ?_⟩
  · intro st i r d v h1 h2
    refine ⟨?_, ?_, ?_, ?_⟩ <;>
      simp [fastly_update_call, fastly_delete_call, gcp_update_call, gcp_delete_call, h1, h2]
  · intro st i r d v h1 h2
    exact ⟨by simp [pagerduty_update_call, h1, h2],
      by simp [pagerduty_delete_call, h1, h2]⟩
  · intro st i r d v h1 h2
    exact ⟨by simp [webhooks_update_call, h1, h2],
      by simp [webhooks_delete_call, h1, h2]⟩
  · intro st₁ st₂ i r
    rfl
  · intro st₁ st₂ i r
    rfl

/-- Witness for `state_store_target_resolution` at a concrete state
entry. -/
theorem state_store_target_resolution_witness :
    fastly_update_call [("src-1", [("id", .vstr "dest-77")])] "src-1" [] = some
      { method := .patch, path := fastlyBasePath ++ "/" ++ "dest-77",
        body := some (.vdict [("data", .vdict [])]), params := none } ∧
    pagerduty_delete_call [("svc", [("service_name", .vstr "dest-svc")])] "svc" = some
      { method := .delete, path := pagerdutyBasePath ++ "/" ++ "dest-svc",
        body := none, params := none } := by
  constructor
  · exact (state_store_target_resolution.1
      [("src-1", [("id", .vstr "dest-77")])] "src-1" [] _ _ rfl rfl).1
  · exact (state_store_target_resolution.2.1
      [("svc", [("service_name", .vstr "dest-svc")])] "svc" [] _ _ rfl rfl).2

/-- C9: on a Destination Cache hit, every upsert path first stores the
cached destination instance into `state.destination[resource_type][_id]`
and only then delegates to `update_resource`, so the State Store entry
`update_resource` reads for `_id` exists and equals the cached instance
at the moment of delegation (shown for the AWS, GCP, Webhooks and Slack
adapters). -/
theorem create_stores_state_before_update :
    (∀ (cache st : DictMap) (i : String) (r cached : Dict),
      alookup cache (aws_get_resource_id r) = some cached →
      aws_create cache st i r =
        (ainsert st i cached, [aws_update_call (ainsert st i cached) i r]) ∧
      alookup (ainsert st i cached) i = some cached) ∧
    (∀ (cache st : DictMap) (i : String) (r cached : Dict) (ce : PyVal),
      pyValGet (pyGet r "attributes" (.vdict [])) "client_email" .vnone = some ce →
      truthy ce = true → alookup cache (pyFmt ce) = some cached →
      gcp_create cache st i r =
        (gcp_update_call (ainsert st i cached) i r).bind
          (fun c => some (ainsert st i cached, [c])) ∧
      alookup (ainsert st i cached) i = some cached) ∧
    (∀ (cache st : DictMap) (i : String) (r cached : Dict) (nm : PyVal),
      alookup r "name" = some nm → alookup cache (pyFmt nm) = some cached →
      webhooks_create cache st i r =
        (webhooks_update_call (ainsert st i cached) i r).bind
          (fun c => some (ainsert st i cached, [c])) ∧
      alookup (ainsert st i cached) i = some cached) ∧
    (∀ (cache st : DictMap) (i : String) (r cached : Dict),
      alookup cache i = some cached →
      slack_create cache st i r =
        (ainsert st i cached, [slack_update_call (ainsert st i cached) i r]) ∧
      alookup (ainsert st i cached) i = some cached) ∧
    (∀ (cache st : DictMap) (i : String) (r cached : Dict),
      alookup cache (azure_get_resource_id r) = some cached →
      azure_create cache st i r =
        (ainsert st i cached, [azure_update_call (ainsert st i cached) i r]) ∧
      alookup (ainsert st i cached) i = some cached) ∧
    (∀ (cache st : DictMap) (i : String) (r cached : Dict) (ad : List (String × PyVal))
        (nv : PyVal),
      alookup r "attributes" = some (.vdict ad) → alookup ad "name" = some nv →
      alookup cache (pyFmt nv) = some cached →
      fastly_create cache st i r =
        (fastly_update_call (ainsert st i cached) i r).bind
          (fun c => some (ainsert st i cached, [c])) ∧
      alookup (ainsert st i cached) i = some cached) ∧
    (∀ (cache st : DictMap) (i : String) (r cached : Dict) (sn : PyVal),
      alookup r "service_name" = some sn → alookup cache (pyFmt sn) = some cached →
      pagerduty_create cache st i r =
        (pagerduty_update_call (ainsert st i cached) i r).bind
          (fun c => some (ainsert st i cached, [c])) ∧
      alookup (ainsert st i cached) i = some cached) ∧
    (∀ (cache st : DictMap) (i : String) (r cached : Dict),
      alookup cache i = some cached →
      sd_create cache st i r = (ainsert st i cached, [sd_update_call r]) ∧
      alookup (ainsert st i cached) i = some cached) := by
  refine ⟨?_, ?_, ?_, ?_, ?_, ?_, ?_, ?_⟩
  · intro cache st i r cached h
    refine ⟨?_, alookup_ainsert_self st i cached⟩
    simp only [aws_create, h]
  · intro cache st i r cached ce h1 h2 h3
    refine ⟨?_, alookup_ainsert_self st i cached⟩
    simp only [gcp_create, h1, h2, h3, Option.bind_eq_bind, Option.some_bind,
      Option.pure_def]
  · intro cache st i r cached nm h1 h2
    refine ⟨?_, alookup_ainsert_self st i cached⟩
    simp only [webhooks_create, h1, h2, Option.bind_eq_bind, Option.some_bind,
      Option.pure_def]
  · intro cache st i r cached h
    refine ⟨?_, alookup_ainsert_self st i cached⟩
    simp only [slack_create, h]
  · intro cache st i r cached h
    refine ⟨?_, alookup_ainsert_self st i cached⟩
    simp only [azure_create, h]
  · intro cache st i r cached ad nv h1 h2 h3
    refine ⟨?_, alookup_ainsert_self st i cached⟩
    simp only [fastly_create, h1, h2, h3, Option.bind_eq_bind, Option.some_bind,
      Option.pure_def]
  · intro cache st i r cached sn h1 h2
    refine ⟨?_, alookup_ainsert_self st i cached⟩
    simp only [pagerduty_create, h1, h2, Option.bind_eq_bind, Option.some_bind,
      Option.pure_def]
  · intro cache st i r cached h
    refine ⟨?_, alookup_ainsert_self st i cached⟩
    simp only [sd_create, h]

/-- Witness for `create_stores_state_before_update` on a concrete cache
hit. -/
theorem create_stores_state_before_update_witness :
    slack_create [("ws:chan", [("name", .vstr "chan")])] [] "ws:chan" [] =
      (ainsert [] "ws:chan" [("name", .vstr "chan")],
       [slack_update_call (ainsert [] "ws:chan" [("name", .vstr "chan")]) "ws:chan" []]) ∧
    alookup (ainsert ([] : DictMap) "ws:chan" [("name", .vstr "chan")]) "ws:chan" =
      some [("name", .vstr "chan")] :=
  create_stores_state_before_update.2.2.2.1
    [("ws:chan", [("name", .vstr "chan")])] [] "ws:chan" [] [("name", .vstr "chan")] rfl

/-- C1: when the instance's Identity Key is a key of the Destination
Cache, `create_resource` issues zero POSTs and delegates to
`update_resource` — for AWS the trace is exactly one PUT and no POST,
for Slack exactly the update call; and a second reconciliation run of
the modelled AWS apply pass over an unchanged source list issues zero
create calls. -/
theorem upsert_idempotence_spec :
    (∀ (cache st : DictMap) (i : String) (r cached : Dict),
      alookup cache (aws_get_resource_id r) = some cached →
      (aws_create cache st i r).2 = [aws_update_call (ainsert st i cached) i r] ∧
      countPosts (aws_create cache st i r).2 = 0 ∧
      countPuts (aws_create cache st i r).2 = 1) ∧
    (∀ (cache st : DictMap) (i : String) (r cached : Dict),
      alookup cache i = some cached →
      (slack_create cache st i r).2 = [slack_update_call (ainsert st i cached) i r] ∧
      countPosts (slack_create cache st i r).2 = 0) ∧
    (∀ (dest0 st0 st1 : DictMap) (sources : List (String × Dict)),
      countPosts (awsRun (awsRun dest0 st0 sources).1 st1 sources).2.2 = 0) := by
  refine ⟨?_, ?_, ?_⟩
  · intro cache st i r cached h
    refine ⟨?_, ?_, ?_⟩ <;> simp [aws_create, h, countPosts, countPuts, aws_update_call]
  · intro cache st i r cached h
    exact ⟨by simp [slack_create, h], by simp [slack_create, h, countPosts, slack_update_call]⟩
  · intro dest0 st0 st1 sources
    unfold awsRun
    rw [awsApplyPass_no_posts]
    · rfl
    · intro sid r hmem
      exact awsApplyPass_covers dest0 sources dest0 st0 [] sid r hmem

/-- Witness for `upsert_idempotence_spec`: the concrete AWS integration
`account_id=123456789012, role_name=DatadogIntegrationRole` already
present at the destination triggers exactly one PUT and zero POSTs. -/
theorem upsert_idempotence_spec_witness :
    countPosts (aws_create
      [("123456789012:DatadogIntegrationRole",
        [("account_id", .vstr "123456789012"), ("role_name", .vstr "DatadogIntegrationRole")])]
      [] "123456789012:DatadogIntegrationRole"
      [("account_id", .vstr "123456789012"), ("role_name", .vstr "DatadogIntegrationRole")]).2 = 0 ∧
    countPuts (aws_create
      [("123456789012:DatadogIntegrationRole",
        [("account_id", .vstr "123456789012"), ("role_name", .vstr "DatadogIntegrationRole")])]
      [] "123456789012:DatadogIntegrationRole"
      [("account_id", .vstr "123456789012"), ("role_name", .vstr "DatadogIntegrationRole")]).2 = 1 := by
  have h := upsert_idempotence_spec.1
    [("123456789012:DatadogIntegrationRole",
      [("account_id", .vstr "123456789012"), ("role_name", .vstr "DatadogIntegrationRole")])]
    [] "123456789012:DatadogIntegrationRole"
    [("account_id", .vstr "123456789012"), ("role_name", .vstr "DatadogIntegrationRole")]
    [("account_id", .vstr "123456789012"), ("role_name", .vstr "DatadogIntegrationRole")]
    (by rfl)
  exact ⟨h.2.1, h.2.2⟩

/-- C8: building the webhooks destination cache iterates over the State
Store's destination entries re-fetching each by its last-known name; a
404 on such a fetch drops the entry with a debug log, any other HTTP
error omits the entry with a warning, a success caches the fetched
instance, and every binding of the built cache stems from a successful
fetch — the build itself is total and never raises. -/
theorem webhooks_cache_build_spec :
    (∀ (fetch : Fetcher) (acc : List (String × PyVal) × List (LogLevel × String))
        (entry : String × Dict) (nm : PyVal) (e : HttpError),
      pyGetN entry.2 "name" = nm → truthy nm = true →
      fetch (webhooksBasePath ++ "/" ++ pyFmt nm) = .error e →
      (e.status_code = 404 →
        webhooks_cache_step fetch acc entry =
          (acc.1, acc.2 ++ [(.debug, "Webhook " ++ pyFmt nm ++ " not found at destination")])) ∧
      (e.status_code ≠ 404 →
        webhooks_cache_step fetch acc entry =
          (acc.1, acc.2 ++ [(.warning, "Error fetching webhook " ++ pyFmt nm)]))) ∧
    (∀ (fetch : Fetcher) (acc : List (String × PyVal) × List (LogLevel × String))
        (entry : String × Dict) (nm : PyVal) (resp : PyVal),
      pyGetN entry.2 "name" = nm → truthy nm = true →
      fetch (webhooksBasePath ++ "/" ++ pyFmt nm) = .ok resp →
      webhooks_cache_step fetch acc entry = (ainsert acc.1 (pyFmt nm) resp, acc.2)) ∧
    (∀ (fetch : Fetcher) (stDest stSrc : DictMap) (k : String) (v : PyVal),
      alookup (webhooks_get_destination_webhooks fetch stDest stSrc).1 k = some v →
      fetch (webhooksBasePath ++ "/" ++ k) = .ok v) := by
  refine ⟨?_, ?_, ?_⟩
  · intro fetch acc entry nm e hn ht hf
    subst hn
    constructor
    · intro h404
      simp [webhooks_cache_step, ht, hf, h404]
    · intro h404
      simp [webhooks_cache_step, ht, hf, h404]
  · intro fetch acc entry nm resp hn ht hf
    subst hn
    simp [webhooks_cache_step, ht, hf]
  · intro fetch stDest stSrc k v
    unfold webhooks_get_destination_webhooks
    refine webhooks_foldl_src_sound fetch stSrc _ ?_ k v
    refine webhooks_foldl_dest_sound fetch stDest ([], []) ?_
    intro k' v' hk
    simp [alookup] at hk

/-- Witness for `webhooks_cache_build_spec`: a fetch answering 404 drops
the sole state entry with a debug log; one answering 500 drops it with a
warning. -/
theorem webhooks_cache_build_spec_witness :
    webhooks_cache_step (fun _ => .error ⟨404⟩) ([], []) ("h1", [("name", .vstr "hook")]) =
      ([], [(.debug, "Webhook hook not found at destination")]) ∧
    webhooks_cache_step (fun _ => .error ⟨500⟩) ([], []) ("h1", [("name", .vstr "hook")]) =
      ([], [(.warning, "Error fetching webhook hook")]) := by
  constructor
  · exact (webhooks_cache_build_spec.1 (fun _ => .error ⟨404⟩) ([], [])
      ("h1", [("name", .vstr "hook")]) (.vstr "hook") ⟨404⟩ rfl rfl rfl).1 rfl
  · exact (webhooks_cache_build_spec.1 (fun _ => .error ⟨500⟩) ([], [])
      ("h1", [("name", .vstr "hook")]) (.vstr "hook") ⟨500⟩ rfl rfl rfl).2 (by decide)
